import Mathlib

/-!
# Verification of the sentinel metrics visualizers

Shallow embedding of the two scripts
`archive/sentinel-refactored/tools/visualize_metrics.py` (Batch Report
Generator) and `sentinel-refactored/rust-port/metrics_visualizer.py`
(Live Plot Server), together with theorems settling the specification
claims about them.

Modelling conventions:
* a pandas `DataFrame` is a list of record structures, in file order;
* timestamps are `Nat` (any totally ordered, parse-order-preserving code);
* CSV/JSON numbers are exact rationals `ℚ`;
* the optional summary columns `FileCount` / `CachedFiles` are tracked by
  presence flags on the table, mirroring the `in summary_df.columns` tests;
* file-system effects (`os.makedirs`, `savefig`, `print`) are recorded in an
  explicit `RunResult`.
-/

-- Batteries marks the rational-number operations `@[irreducible]`, which
-- blocks `decide` on concrete charts; restore default reducibility so that
-- concrete runs of the embedded pipeline evaluate.
attribute [local semireducible] Rat.mul Rat.add Rat.sub Rat.inv

namespace Sentinel

/-- One row of `metrics/performance_details.csv`:
columns `Timestamp`, `Stage`, `Duration(ms)`. -/
structure DetailRow where
  timestamp : Nat
  stage : String
  duration : ℚ
deriving DecidableEq, Repr

/-- One row of `metrics/performance_summary.csv`.  The `fileCount` /
`cachedFiles` fields are only meaningful when the corresponding column-presence
flag of the enclosing `SummaryTable` is set. -/
structure SummaryRow where
  timestamp : Nat
  totalDuration : ℚ
  memoryUsed : ℚ
  fileCount : Int
  cachedFiles : Int
deriving DecidableEq, Repr

/-- The loaded summary table: rows in file order plus presence of the two
optional columns.  `nonCachedCol` models the derived `NonCachedFiles` column,
absent (`none`) as loaded and possibly added later by
`visualize_cache_effectiveness`. -/
structure SummaryTable where
  rows : List SummaryRow
  hasFileCount : Bool
  hasCachedFiles : Bool
  nonCachedCol : Option (List Int)
deriving DecidableEq, Repr

/-! ## Stage Breakdown (`visualize_stage_breakdown`) -/

/-- `details_df['Timestamp'].max()` — the maximum timestamp over all detail
rows (`0` on the empty table, which the script never charts). -/
def maxTimestamp (rows : List DetailRow) : Nat :=
  rows.foldr (fun r m => max r.timestamp m) 0

/-- `latest_run = details_df[details_df['Timestamp'] == latest_timestamp]`. -/
def latest_run (rows : List DetailRow) : List DetailRow :=
  rows.filter (fun r => r.timestamp == maxTimestamp rows)

/-- The descending-by-duration order used by
`latest_run.sort_values('Duration(ms)', ascending=False)`. -/
def durGE (a b : DetailRow) : Prop :=
  b.duration ≤ a.duration

instance : DecidableRel durGE :=
  fun a b => inferInstanceAs (Decidable (b.duration ≤ a.duration))

instance : IsTotal DetailRow durGE :=
  ⟨fun a b => (le_total b.duration a.duration).imp id id⟩

instance : IsTrans DetailRow durGE :=
  ⟨fun _ _ _ h1 h2 => le_trans h2 h1⟩

/-- The rows plotted by the Stage Breakdown chart: the latest run's rows,
sorted by duration descending. -/
def latest_run_sorted (rows : List DetailRow) : List DetailRow :=
  (latest_run rows).insertionSort durGE

/-- Python's `int()` applied to a (here: rational) number — truncation toward
zero: `num.tdiv den` on the reduced fraction (the denominator is positive). -/
def pyInt (q : ℚ) : Int :=
  q.num.tdiv q.den

/-- One bar of the Stage Breakdown chart: `plt.bar` keeps the raw duration as
the bar height, and `plt.text(..., f'{int(height)}', ...)` annotates the bar
with `int(height)`. -/
structure Bar where
  stage : String
  height : ℚ
  label : Int
deriving DecidableEq, Repr

/-- `visualize_stage_breakdown`: bars for the latest run, duration-descending,
each carrying its unrounded height and its `int(height)` text label. -/
def visualize_stage_breakdown (rows : List DetailRow) : List Bar :=
  (latest_run_sorted rows).map (fun r => ⟨r.stage, r.duration, pyInt r.duration⟩)

/-! ## Stage Trends (`visualize_stage_trends`) -/

/-- The cell of `details_df.pivot_table(index='Timestamp', columns='Stage',
values='Duration(ms)', aggfunc='first')` at `(ts, stage)`: `groupby` keeps the
rows of a group in file order and `'first'` takes the group's first value, so
the cell is the duration of the first row matching the pair (or `none` when the
pair never occurs). -/
def pivotFirst (rows : List DetailRow) (ts : Nat) (stage : String) : Option ℚ :=
  ((rows.filter (fun r => r.timestamp == ts && r.stage == stage)).map
    (fun r => r.duration)).head?

/-- The pivot's sorted row index: the distinct timestamps, ascending. -/
def pivotTimestamps (rows : List DetailRow) : List Nat :=
  ((rows.map (fun r => r.timestamp)).dedup).insertionSort (· ≤ ·)

/-- The pivot's column labels: the distinct stage names, sorted. -/
def pivotStages (rows : List DetailRow) : List String :=
  ((rows.map (fun r => r.stage)).dedup).insertionSort (· ≤ ·)

/-- The Stage Trends chart: one line per distinct stage over the pivoted
series. -/
structure TrendsChart where
  lines : List (String × List (Nat × Option ℚ))
deriving DecidableEq, Repr

/-- `visualize_stage_trends`: pivot by `(Timestamp, Stage)` with
`aggfunc='first'` and plot one line per stage column. -/
def visualize_stage_trends (rows : List DetailRow) : TrendsChart :=
  ⟨(pivotStages rows).map (fun st =>
    (st, (pivotTimestamps rows).map (fun ts => (ts, pivotFirst rows ts st))))⟩

/-! ## Overall Trend (`visualize_overall_trend`) -/

/-- The Overall Trend chart: the two stacked sub-charts' point series. -/
structure OverallChart where
  durationPoints : List (Nat × ℚ)
  memoryPoints : List (Nat × ℚ)
deriving DecidableEq, Repr

/-- `visualize_overall_trend`: `ax1.plot(summary_df['Timestamp'],
summary_df['TotalDuration(ms)'])` and `ax2.plot(summary_df['Timestamp'],
summary_df['MemoryUsed(MB)'])` pair the two columns elementwise, in file
order. -/
def visualize_overall_trend (t : SummaryTable) : OverallChart :=
  ⟨(t.rows.map (fun r => r.timestamp)).zip (t.rows.map (fun r => r.totalDuration)),
   (t.rows.map (fun r => r.timestamp)).zip (t.rows.map (fun r => r.memoryUsed))⟩

/-! ## Cache Effectiveness (`visualize_cache_effectiveness`) -/

/-- The floor of a rational, computed on its reduced fraction. -/
def ratFloor (q : ℚ) : Int :=
  q.num.fdiv q.den

/-- Round a rational to the nearest integer, ties to even — the rounding used
when formatting with `'{:.1f}'` (applied to the tenths value). -/
def roundHalfEven (q : ℚ) : Int :=
  let f := ratFloor q
  let r := q - (f : ℚ)
  if r < 1/2 then f
  else if 1/2 < r then f + 1
  else if f % 2 = 0 then f else f + 1

/-- Format a rational with one decimal place, as Python's `f'{x:.1f}'` does on
the exact value. -/
def formatFixed1 (q : ℚ) : String :=
  let n := roundHalfEven (q * 10)
  let sign := if n < 0 then "-" else ""
  sign ++ toString (n.natAbs / 10) ++ "." ++ toString (n.natAbs % 10)

/-- The percentage text placed over one stacked bar:
`if total > 0: ax.text(..., f'{percentage:.1f}%', ...)` with
`percentage = cached / total * 100`; no text (and no division) when the guard
fails. -/
def cacheAnnotation (r : SummaryRow) : Option String :=
  if 0 < r.fileCount then
    some (formatFixed1 ((r.cachedFiles : ℚ) / (r.fileCount : ℚ) * 100) ++ "%")
  else
    none

/-- The Cache Effectiveness chart: per run in file order, the stacked bar's
cached (bottom) and non-cached (top) segments plus the optional percentage
annotation. -/
structure CacheChart where
  cachedBars : List Int
  nonCachedBars : List Int
  annotations : List (Option String)
deriving DecidableEq, Repr

/-- Result of `visualize_cache_effectiveness`: the chart if produced, the
diagnostics printed, and the summary table as left behind by the function
(the in-place `summary_df['NonCachedFiles'] = ...` assignment included). -/
structure CacheResult where
  chart : Option CacheChart
  printed : List String
  table : SummaryTable
deriving DecidableEq, Repr

/-- `visualize_cache_effectiveness`: skip (with a diagnostic) unless both
`CachedFiles` and `FileCount` columns exist; otherwise add the derived
`NonCachedFiles` column to `summary_df` in place and build the stacked bar
chart with per-run percentage annotations. -/
def visualize_cache_effectiveness (t : SummaryTable) : CacheResult :=
  if !(t.hasCachedFiles && t.hasFileCount) then
    ⟨none, ["Cache data not available in summary file"], t⟩
  else
    let nonCached := t.rows.map (fun r => r.fileCount - r.cachedFiles)
    ⟨some ⟨t.rows.map (fun r => r.cachedFiles), nonCached,
           t.rows.map cacheAnnotation⟩,
     [],
     { t with nonCachedCol := some nonCached }⟩

/-! ## `load_data` and `main` -/

/-- The file-system state the batch script sees: whether the `metrics`
directory exists, and the two input files (present with their parsed contents,
or absent). -/
structure FS where
  metricsDir : Bool
  summaryFile : Option SummaryTable
  detailsFile : Option (List DetailRow)
deriving DecidableEq, Repr

/-- Fixed input paths: `os.path.join('metrics', ...)`. -/
def summaryPath : String := "metrics/performance_summary.csv"

/-- Fixed input path of the detail table. -/
def detailsPath : String := "metrics/performance_details.csv"

/-- `load_data`: return `(None, None)` with a diagnostic naming the expected
path when either file is absent (the summary file is checked first), otherwise
both parsed tables.  The second component is the printed output. -/
def load_data (fs : FS) :
    (Option SummaryTable × Option (List DetailRow)) × List String :=
  match fs.summaryFile with
  | none => ((none, none), ["Error: Summary file not found at " ++ summaryPath])
  | some s =>
    match fs.detailsFile with
    | none => ((none, none), ["Error: Details file not found at " ++ detailsPath])
    | some d => ((some s, some d), [])

/-- The observable outcome of one `main()` invocation: the file-system effects
(`os.makedirs`, the `savefig` targets written, the lines printed) and the
charts computed, plus the final state of the two loaded tables. -/
structure RunResult where
  metricsDir : Bool
  written : List String
  printed : List String
  overall : Option OverallChart
  breakdown : Option (List Bar)
  trends : Option TrendsChart
  cache : Option CacheChart
  finalSummary : Option SummaryTable
  finalDetails : Option (List DetailRow)
deriving DecidableEq, Repr

/-- The closing lines `main` prints after generating the visualizations. -/
def successTrailer : List String :=
  ["Visualizations created in metrics directory:",
   "  - overall_trend.png",
   "  - stage_breakdown.png",
   "  - stage_trends.png",
   "  - cache_effectiveness.png"]

/-- `main()`: `os.makedirs('metrics', exist_ok=True)` first, then `load_data`;
abort (keeping the created directory) when a table is missing; otherwise
produce the four charts in order, `visualize_cache_effectiveness` degrading to
a diagnostic when its columns are absent. -/
def main (fs : FS) : RunResult :=
  match load_data { fs with metricsDir := true } with
  | ((some s, some d), _) =>
    let overall := visualize_overall_trend s
    let breakdown := visualize_stage_breakdown d
    let trends := visualize_stage_trends d
    let cacheRes := visualize_cache_effectiveness s
    { metricsDir := true
      written := ["metrics/overall_trend.png", "metrics/stage_breakdown.png",
                  "metrics/stage_trends.png"] ++
        (if cacheRes.chart.isSome then ["metrics/cache_effectiveness.png"] else [])
      printed := ["Loaded " ++ toString s.rows.length ++ " summary records and "
                    ++ toString d.length ++ " detail records"] ++
        cacheRes.printed ++ successTrailer
      overall := some overall
      breakdown := some breakdown
      trends := some trends
      cache := cacheRes.chart
      finalSummary := some cacheRes.table
      finalDetails := some d }
  | ((_, _), msgs) =>
    { metricsDir := true, written := [], printed := msgs,
      overall := none, breakdown := none, trends := none, cache := none,
      finalSummary := none, finalDetails := none }

/-! ## Live Plot Server (`metrics_visualizer.py`) -/

/-- Python's `s.replace('Z', '+00:00')` for the single-character pattern `'Z'`:
every `'Z'` is replaced by the six characters `+00:00`, all other characters
kept. -/
def replaceZ : List Char → List Char
  | [] => []
  | c :: cs =>
    (if c = 'Z' then ['+', '0', '0', ':', '0', '0'] else [c]) ++ replaceZ cs

/-- The string `parse_metrics` hands to `datetime.fromisoformat` for one
timestamp entry: `m['timestamp'].replace('Z', '+00:00')`.  Since
`fromisoformat` is a pure function of its argument, two entries normalizing to
the same character list parse to the identical time-aware value. -/
def parse_metrics_normalized (s : String) : List Char :=
  replaceZ s.data

/-! ## Theorems -/

/-- On nonnegative rationals, Python truncation agrees with the floor. -/
theorem pyInt_eq_floor_of_nonneg (q : ℚ) (h : 0 ≤ q) : pyInt q = ⌊q⌋ := by
  rw [pyInt, Rat.floor_def]
  exact Int.tdiv_eq_ediv (Rat.num_nonneg.mpr h) (Int.ofNat_nonneg q.den)

/-- `ratFloor` agrees with the floor on all rationals. -/
theorem ratFloor_eq_floor (q : ℚ) : ratFloor q = ⌊q⌋ := by
  rw [ratFloor, Rat.floor_def]
  exact Int.fdiv_eq_ediv q.num (Int.ofNat_nonneg q.den)

/-- **C1**: for every non-empty detail table, Stage Breakdown plots exactly the
detail rows whose timestamp equals the maximum timestamp over all detail rows
(a permutation of that filtered subset, so no row with an earlier timestamp
appears), and the plotted rows are ordered by duration in descending order. -/
theorem stage_breakdown_latest_run_sorted (rows : List DetailRow) (_h : rows ≠ []) :
    (∀ b ∈ latest_run_sorted rows, b.timestamp = maxTimestamp rows) ∧
    (latest_run_sorted rows).Perm
      (rows.filter (fun r => r.timestamp == maxTimestamp rows)) ∧
    (latest_run_sorted rows).Sorted (fun a b => b.duration ≤ a.duration) ∧
    (∀ r ∈ rows, r.timestamp < maxTimestamp rows → r ∉ latest_run_sorted rows) := by
  refine ⟨?_, ?_, ?_, ?_⟩
  · intro b hb
    simp only [latest_run_sorted, List.mem_insertionSort, latest_run,
      List.mem_filter, beq_iff_eq] at hb
    exact hb.2
  · exact List.perm_insertionSort durGE (latest_run rows)
  · exact List.sorted_insertionSort durGE (latest_run rows)
  · intro r _ hlt hmem
    simp only [latest_run_sorted, List.mem_insertionSort, latest_run,
      List.mem_filter, beq_iff_eq] at hmem
    exact absurd hmem.2 (Nat.ne_of_lt hlt)

/-- Witness for `stage_breakdown_latest_run_sorted` on a two-run table. -/
theorem stage_breakdown_latest_run_sorted_witness :
    ([⟨1, "load", 2⟩, ⟨2, "parse", 1⟩, ⟨2, "index", 5⟩] : List DetailRow) ≠ [] ∧
    ((∀ b ∈ latest_run_sorted [⟨1, "load", 2⟩, ⟨2, "parse", 1⟩, ⟨2, "index", 5⟩],
        b.timestamp =
          maxTimestamp [⟨1, "load", 2⟩, ⟨2, "parse", 1⟩, ⟨2, "index", 5⟩]) ∧
      (latest_run_sorted [⟨1, "load", 2⟩, ⟨2, "parse", 1⟩, ⟨2, "index", 5⟩]).Perm
        (([⟨1, "load", 2⟩, ⟨2, "parse", 1⟩, ⟨2, "index", 5⟩] : List DetailRow).filter
          (fun r => r.timestamp ==
            maxTimestamp [⟨1, "load", 2⟩, ⟨2, "parse", 1⟩, ⟨2, "index", 5⟩])) ∧
      (latest_run_sorted [⟨1, "load", 2⟩, ⟨2, "parse", 1⟩, ⟨2, "index", 5⟩]).Sorted
        (fun a b => b.duration ≤ a.duration) ∧
      (∀ r ∈ ([⟨1, "load", 2⟩, ⟨2, "parse", 1⟩, ⟨2, "index", 5⟩] : List DetailRow),
        r.timestamp < maxTimestamp [⟨1, "load", 2⟩, ⟨2, "parse", 1⟩, ⟨2, "index", 5⟩] →
          r ∉ latest_run_sorted [⟨1, "load", 2⟩, ⟨2, "parse", 1⟩, ⟨2, "index", 5⟩])) :=
  ⟨by decide, stage_breakdown_latest_run_sorted
    [⟨1, "load", 2⟩, ⟨2, "parse", 1⟩, ⟨2, "index", 5⟩] (by decide)⟩

/-- **C3** counterexample: for the one-row table with duration `10.6`, the bar
keeps the unrounded height `10.6` but its text label is `int(10.6) = 10`,
whereas the nearest integer is `round 10.6 = 11`. -/
theorem stage_breakdown_label_counterexample :
    (visualize_stage_breakdown [⟨0, "parse", mkRat 53 5⟩]).map Bar.height
      = [mkRat 53 5] ∧
    round (mkRat 53 5) = 11 ∧
    (visualize_stage_breakdown [⟨0, "parse", mkRat 53 5⟩]).map Bar.label
      ≠ [round (mkRat 53 5)] := by
  have hround : round (mkRat 53 5) = 11 := by
    rw [round_eq,
      show (mkRat 53 5 + 1 / 2 : ℚ) = ((111 : ℤ) : ℚ) / ((10 : ℕ) : ℚ) by
        norm_num [Rat.mkRat_eq_div],
      Rat.floor_intCast_div_natCast]
    decide
  refine ⟨by decide, hround, ?_⟩
  rw [hround]
  decide

/-- **C3** (amended): for every bar of the Stage Breakdown chart, the numeric
label above the bar is the bar's duration truncated toward zero (Python's
`int()`), not rounded to nearest, while the plotted height keeps the unrounded
duration. -/
theorem stage_breakdown_label_is_pyInt (rows : List DetailRow) :
    (∀ b ∈ visualize_stage_breakdown rows, b.label = pyInt b.height) ∧
    (visualize_stage_breakdown rows).map Bar.height
      = (latest_run_sorted rows).map DetailRow.duration := by
  constructor
  · intro b hb
    simp only [visualize_stage_breakdown, List.mem_map] at hb
    obtain ⟨r, _, rfl⟩ := hb
    rfl
  · simp only [visualize_stage_breakdown, List.map_map]
    rfl

/-- Witness for `stage_breakdown_label_is_pyInt` at duration `10.6`. -/
theorem stage_breakdown_label_is_pyInt_witness :
    (Bar.mk "parse" (mkRat 53 5) 10).label
      = pyInt (Bar.mk "parse" (mkRat 53 5) 10).height :=
  (stage_breakdown_label_is_pyInt [⟨0, "parse", mkRat 53 5⟩]).1 _ (by decide)

/-- **C4**: when several detail rows share a `(timestamp, stage)` pair, the
pivot cell used by Stage Trends is the duration of the first such row in file
order — any duplicates occurring later in the file (here: all of `post`) are
dropped and do not affect the plotted series, which carries exactly that
first-seen value for the pair. -/
theorem stage_trends_first_occurrence_wins (pre post : List DetailRow)
    (r : DetailRow)
    (h : ∀ q ∈ pre, ¬(q.timestamp = r.timestamp ∧ q.stage = r.stage)) :
    pivotFirst (pre ++ r :: post) r.timestamp r.stage = some r.duration ∧
    ∀ pts, (r.stage, pts) ∈ (visualize_stage_trends (pre ++ r :: post)).lines →
      (r.timestamp, some r.duration) ∈ pts := by
  have hpre : pre.filter
      (fun q => q.timestamp == r.timestamp && q.stage == r.stage) = [] := by
    rw [List.filter_eq_nil_iff]
    intro q hq
    simpa using h q hq
  have hcell : pivotFirst (pre ++ r :: post) r.timestamp r.stage
      = some r.duration := by
    unfold pivotFirst
    rw [List.filter_append, hpre]
    simp
  refine ⟨hcell, ?_⟩
  intro pts hpts
  simp only [visualize_stage_trends, List.mem_map] at hpts
  obtain ⟨st, hst, heq⟩ := hpts
  have hpts' : pts = (pivotTimestamps (pre ++ r :: post)).map
      (fun ts => (ts, pivotFirst (pre ++ r :: post) ts st)) :=
    (congrArg Prod.snd heq).symm
  have hstage : st = r.stage := congrArg Prod.fst heq
  subst hstage
  rw [hpts']
  have hts : r.timestamp ∈ pivotTimestamps (pre ++ r :: post) := by
    simp only [pivotTimestamps, List.mem_insertionSort, List.mem_dedup,
      List.mem_map]
    exact ⟨r, by simp, rfl⟩
  exact List.mem_map.mpr ⟨r.timestamp, hts, by rw [hcell]⟩

/-- Witness for `stage_trends_first_occurrence_wins`: the pair `(2, "parse")`
occurs twice; the first duration `3` wins over the later `9`. -/
theorem stage_trends_first_occurrence_wins_witness :
    (∀ q ∈ ([⟨1, "load", 1⟩] : List DetailRow),
      ¬(q.timestamp = (⟨2, "parse", 3⟩ : DetailRow).timestamp ∧
        q.stage = (⟨2, "parse", 3⟩ : DetailRow).stage)) ∧
    pivotFirst ([⟨1, "load", 1⟩] ++ ⟨2, "parse", 3⟩ :: [⟨2, "parse", 9⟩])
        (⟨2, "parse", 3⟩ : DetailRow).timestamp
        (⟨2, "parse", 3⟩ : DetailRow).stage
      = some (⟨2, "parse", 3⟩ : DetailRow).duration :=
  ⟨by decide,
   (stage_trends_first_occurrence_wins [⟨1, "load", 1⟩] [⟨2, "parse", 9⟩]
      ⟨2, "parse", 3⟩ (by decide)).1⟩

/-- **C2**: for every summary row the Cache Effectiveness annotation is
`cached / total * 100` formatted with one decimal place and a trailing `%`
(`FileCount = 10`, `CachedFiles = 4` yields exactly `"40.0%"`), and for a row
with `FileCount = 0` the annotation is omitted, the guard preventing any
division by zero. -/
theorem cache_annotation_percentage (r : SummaryRow) :
    (0 < r.fileCount →
      cacheAnnotation r =
        some (formatFixed1 ((r.cachedFiles : ℚ) / (r.fileCount : ℚ) * 100)
          ++ "%")) ∧
    (r.fileCount = 10 → r.cachedFiles = 4 → cacheAnnotation r = some "40.0%") ∧
    (r.fileCount = 0 → cacheAnnotation r = none) := by
  refine ⟨fun h => if_pos h, fun h10 h4 => ?_, fun h0 => ?_⟩
  · unfold cacheAnnotation
    rw [h10, h4]
    decide
  · unfold cacheAnnotation
    rw [h0]
    exact if_neg (by decide)

/-- Witness for `cache_annotation_percentage` at the spec's example rows. -/
theorem cache_annotation_percentage_witness :
    cacheAnnotation ⟨0, 0, 0, 10, 4⟩ = some "40.0%" ∧
    cacheAnnotation ⟨0, 0, 0, 0, 0⟩ = none :=
  ⟨(cache_annotation_percentage ⟨0, 0, 0, 10, 4⟩).2.1 rfl rfl,
   (cache_annotation_percentage ⟨0, 0, 0, 0, 0⟩).2.2 rfl⟩

/-- **C9**: each Overall Trend sub-chart (duration, memory) plots exactly one
point per summary row — the point count equals the table's row count — and the
points appear in the row order of the file, with no re-sorting by timestamp. -/
theorem overall_trend_one_point_per_row (t : SummaryTable) :
    (visualize_overall_trend t).durationPoints.length = t.rows.length ∧
    (visualize_overall_trend t).memoryPoints.length = t.rows.length ∧
    (visualize_overall_trend t).durationPoints
      = t.rows.map (fun r => (r.timestamp, r.totalDuration)) ∧
    (visualize_overall_trend t).memoryPoints
      = t.rows.map (fun r => (r.timestamp, r.memoryUsed)) := by
  have h1 : (visualize_overall_trend t).durationPoints
      = t.rows.map (fun r => (r.timestamp, r.totalDuration)) := by
    simp only [visualize_overall_trend]
    exact List.zip_map' _ _ _
  have h2 : (visualize_overall_trend t).memoryPoints
      = t.rows.map (fun r => (r.timestamp, r.memoryUsed)) := by
    simp only [visualize_overall_trend]
    exact List.zip_map' _ _ _
  exact ⟨by rw [h1, List.length_map], by rw [h2, List.length_map], h1, h2⟩

/-- **C5**: when the summary table lacks the `FileCount` column or the
`CachedFiles` column, the Cache Effectiveness chart is skipped with the printed
diagnostic and the run does not fail: the other three chart files are still
written and their charts computed. -/
theorem cache_column_missing_skips_only_cache (fs : FS) (s : SummaryTable)
    (d : List DetailRow) (hs : fs.summaryFile = some s)
    (hd : fs.detailsFile = some d)
    (hcol : s.hasFileCount = false ∨ s.hasCachedFiles = false) :
    (Sentinel.main fs).written =
      ["metrics/overall_trend.png", "metrics/stage_breakdown.png",
       "metrics/stage_trends.png"] ∧
    "Cache data not available in summary file" ∈ (Sentinel.main fs).printed ∧
    (Sentinel.main fs).overall = some (visualize_overall_trend s) ∧
    (Sentinel.main fs).breakdown = some (visualize_stage_breakdown d) ∧
    (Sentinel.main fs).trends = some (visualize_stage_trends d) ∧
    (Sentinel.main fs).cache = none := by
  have hguard : (s.hasCachedFiles && s.hasFileCount) = false := by
    rcases hcol with h | h <;> simp [h]
  have hcache : visualize_cache_effectiveness s =
      ⟨none, ["Cache data not available in summary file"], s⟩ := by
    unfold visualize_cache_effectiveness
    rw [hguard]
    rfl
  obtain ⟨m, sf, df⟩ := fs
  cases hs
  cases hd
  simp [Sentinel.main, load_data, hcache]

/-- Witness for `cache_column_missing_skips_only_cache`: summary table without
`CachedFiles`. -/
theorem cache_column_missing_skips_only_cache_witness :
    (FS.mk false (some ⟨[⟨0, 5, 5, 7, 3⟩], true, false, none⟩) (some [])).summaryFile
        = some ⟨[⟨0, 5, 5, 7, 3⟩], true, false, none⟩ ∧
    ((FS.mk false (some ⟨[⟨0, 5, 5, 7, 3⟩], true, false, none⟩) (some [])).detailsFile
        = some []) ∧
    ((true : Bool) = false ∨ (false : Bool) = false) ∧
    (Sentinel.main
        (FS.mk false (some ⟨[⟨0, 5, 5, 7, 3⟩], true, false, none⟩) (some []))).cache
      = none :=
  ⟨rfl, rfl, Or.inr rfl,
   (cache_column_missing_skips_only_cache
      (FS.mk false (some ⟨[⟨0, 5, 5, 7, 3⟩], true, false, none⟩) (some []))
      ⟨[⟨0, 5, 5, 7, 3⟩], true, false, none⟩ [] rfl rfl (Or.inr rfl)).2.2.2.2.2⟩

/-- **C6**: when the summary file or the details file is absent, `main` prints
a diagnostic naming the expected path and exits without producing any of the
four chart output files; no chart is attempted. -/
theorem missing_input_file_aborts_run (fs : FS)
    (h : fs.summaryFile = none ∨ fs.detailsFile = none) :
    (Sentinel.main fs).written = [] ∧
    ((Sentinel.main fs).printed =
        ["Error: Summary file not found at " ++ summaryPath] ∨
     (Sentinel.main fs).printed =
        ["Error: Details file not found at " ++ detailsPath]) ∧
    (Sentinel.main fs).overall = none ∧
    (Sentinel.main fs).breakdown = none ∧
    (Sentinel.main fs).trends = none ∧
    (Sentinel.main fs).cache = none := by
  obtain ⟨m, sf, df⟩ := fs
  cases sf with
  | none => simp [Sentinel.main, load_data]
  | some s =>
    cases df with
    | none => simp [Sentinel.main, load_data]
    | some d => simp at h

/-- Witness for `missing_input_file_aborts_run`: both inputs absent. -/
theorem missing_input_file_aborts_run_witness :
    ((FS.mk false none none).summaryFile = none ∨
      (FS.mk false none none).detailsFile = none) ∧
    (Sentinel.main (FS.mk false none none)).written = [] :=
  ⟨Or.inl rfl, (missing_input_file_aborts_run (FS.mk false none none)
    (Or.inl rfl)).1⟩

/-- **C10**: `main` creates the metrics output directory before checking the
input files, so even a run aborted by a missing input leaves the directory
created while writing no chart file into it. -/
theorem metrics_dir_created_even_on_abort (fs : FS)
    (h : fs.summaryFile = none ∨ fs.detailsFile = none) :
    (Sentinel.main fs).metricsDir = true ∧ (Sentinel.main fs).written = [] := by
  obtain ⟨m, sf, df⟩ := fs
  cases sf with
  | none => simp [Sentinel.main, load_data]
  | some s =>
    cases df with
    | none => simp [Sentinel.main, load_data]
    | some d => simp at h

/-- Witness for `metrics_dir_created_even_on_abort`: details file absent,
directory initially missing. -/
theorem metrics_dir_created_even_on_abort_witness :
    ((FS.mk false (some ⟨[], false, false, none⟩) none).summaryFile = none ∨
      (FS.mk false (some ⟨[], false, false, none⟩) none).detailsFile = none) ∧
    (Sentinel.main (FS.mk false (some ⟨[], false, false, none⟩) none)).metricsDir
      = true :=
  ⟨Or.inr rfl, (metrics_dir_created_even_on_abort
    (FS.mk false (some ⟨[], false, false, none⟩) none) (Or.inr rfl)).1⟩

/-- `replaceZ` distributes over concatenation. -/
theorem replaceZ_append (a b : List Char) :
    replaceZ (a ++ b) = replaceZ a ++ replaceZ b := by
  induction a with
  | nil => rfl
  | cons c cs ih => simp [replaceZ, ih]

/-- `replaceZ` fixes every string that contains no `'Z'`. -/
theorem replaceZ_of_not_mem (a : List Char) (h : 'Z' ∉ a) : replaceZ a = a := by
  induction a with
  | nil => rfl
  | cons c cs ih =>
    simp only [List.mem_cons, not_or] at h
    simp [replaceZ, Ne.symm h.1, ih h.2]

/-- **C7**: for every timestamp body free of the character `'Z'`, the
`Z`-suffixed form and the explicit `+00:00`-suffixed form normalize (via
`timestamp.replace('Z', '+00:00')`) to the identical character sequence, so
`datetime.fromisoformat` — a pure function of that sequence — parses the two
forms to equal time-aware values; both normalize to the explicit-offset
form. -/
theorem parse_metrics_z_suffix_equiv (s : List Char) (h : 'Z' ∉ s) :
    parse_metrics_normalized ⟨s ++ ['Z']⟩ =
      parse_metrics_normalized ⟨s ++ ['+', '0', '0', ':', '0', '0']⟩ ∧
    parse_metrics_normalized ⟨s ++ ['Z']⟩ =
      s ++ ['+', '0', '0', ':', '0', '0'] := by
  have h1 : parse_metrics_normalized ⟨s ++ ['Z']⟩ =
      s ++ ['+', '0', '0', ':', '0', '0'] := by
    show replaceZ (s ++ ['Z']) = s ++ ['+', '0', '0', ':', '0', '0']
    rw [replaceZ_append, replaceZ_of_not_mem s h]
    rfl
  have h2 : parse_metrics_normalized ⟨s ++ ['+', '0', '0', ':', '0', '0']⟩ =
      s ++ ['+', '0', '0', ':', '0', '0'] := by
    show replaceZ (s ++ ['+', '0', '0', ':', '0', '0'])
        = s ++ ['+', '0', '0', ':', '0', '0']
    rw [replaceZ_append, replaceZ_of_not_mem s h]
    rfl
  exact ⟨h1.trans h2.symm, h1⟩

/-- Witness for `parse_metrics_z_suffix_equiv` at the spec's example
timestamp `2024-01-01T00:00:00`. -/
theorem parse_metrics_z_suffix_equiv_witness :
    'Z' ∉ "2024-01-01T00:00:00".data ∧
    parse_metrics_normalized ⟨"2024-01-01T00:00:00".data ++ ['Z']⟩ =
      parse_metrics_normalized
        ⟨"2024-01-01T00:00:00".data ++ ['+', '0', '0', ':', '0', '0']⟩ :=
  ⟨by decide,
   (parse_metrics_z_suffix_equiv "2024-01-01T00:00:00".data (by decide)).1⟩

/-- **C8** counterexample: `visualize_cache_effectiveness` does mutate the
loaded summary table — the in-place assignment
`summary_df['NonCachedFiles'] = summary_df['FileCount'] - summary_df['CachedFiles']`
adds a column, so the table left behind differs from the loaded one. -/
theorem cache_effectiveness_mutates_table :
    (visualize_cache_effectiveness
        ⟨[⟨0, 5, 5, 10, 4⟩], true, true, none⟩).table ≠
      ⟨[⟨0, 5, 5, 10, 4⟩], true, true, none⟩ := by
  decide

/-- **C8** (amended): no chart-producing operation changes any loaded row or
value of the summary or detail tables, nothing is written back to the two
input files, and the loaded detail table is left unchanged; the single
mutation is that `visualize_cache_effectiveness` adds the derived
`NonCachedFiles` column to the loaded summary table in place (when both cache
columns are present). -/
theorem charts_preserve_loaded_tables (fs : FS) (s : SummaryTable)
    (d : List DetailRow) (hs : fs.summaryFile = some s)
    (hd : fs.detailsFile = some d) :
    (Sentinel.main fs).finalDetails = some d ∧
    ((Sentinel.main fs).finalSummary).map SummaryTable.rows = some s.rows ∧
    ((Sentinel.main fs).finalSummary).map SummaryTable.hasFileCount
      = some s.hasFileCount ∧
    ((Sentinel.main fs).finalSummary).map SummaryTable.hasCachedFiles
      = some s.hasCachedFiles ∧
    (Sentinel.main fs).finalSummary = some
      { s with nonCachedCol :=
          if s.hasCachedFiles && s.hasFileCount then
            some (s.rows.map (fun r => r.fileCount - r.cachedFiles))
          else s.nonCachedCol } ∧
    summaryPath ∉ (Sentinel.main fs).written ∧
    detailsPath ∉ (Sentinel.main fs).written := by
  obtain ⟨m, sf, df⟩ := fs
  cases hs
  cases hd
  cases hg : (s.hasCachedFiles && s.hasFileCount) with
  | false =>
    have hcache : visualize_cache_effectiveness s =
        ⟨none, ["Cache data not available in summary file"], s⟩ := by
      unfold visualize_cache_effectiveness
      rw [hg]
      rfl
    simp [Sentinel.main, load_data, hcache, hg, summaryPath, detailsPath]
  | true =>
    simp [Sentinel.main, load_data, visualize_cache_effectiveness, hg,
      summaryPath, detailsPath]

/-- Witness for `charts_preserve_loaded_tables` on a one-row table with both
cache columns. -/
theorem charts_preserve_loaded_tables_witness :
    (FS.mk true (some ⟨[⟨0, 5, 5, 10, 4⟩], true, true, none⟩)
        (some [⟨0, "load", 1⟩])).summaryFile
      = some ⟨[⟨0, 5, 5, 10, 4⟩], true, true, none⟩ ∧
    (Sentinel.main (FS.mk true (some ⟨[⟨0, 5, 5, 10, 4⟩], true, true, none⟩)
        (some [⟨0, "load", 1⟩]))).finalDetails = some [⟨0, "load", 1⟩] :=
  ⟨rfl,
   (charts_preserve_loaded_tables
      (FS.mk true (some ⟨[⟨0, 5, 5, 10, 4⟩], true, true, none⟩)
        (some [⟨0, "load", 1⟩]))
      ⟨[⟨0, 5, 5, 10, 4⟩], true, true, none⟩ [⟨0, "load", 1⟩] rfl rfl).1⟩

end Sentinel
